import Mathlib

/-!
Verification of the VOLAI options-analysis dashboard (src/app.py).

The script is a linear pipeline: fetch quote summaries, option strikes and
core analytics for a ticker, filter strikes to a 60-day expiration window,
select the nearest-to-the-money strike per expiration date, build a text
prompt and call a chat-completion endpoint.  We embed the dataframe
operations as pure functions on lists of records (prices as rationals,
dates as integer day ordinals) and the pipeline control flow as a function
from fetch results to a run-output record, where an uncaught Python
exception is modelled by the `crashed` field.
-/

/-- A normalized strike record (one row of `df_strikes` after the
`expiration`/`expirDate` standardization of app.py lines 52-58).
`expiration` is a date as an integer day ordinal; numeric columns are
rationals standing for the floats of the source. -/
structure StrikeRecord where
  expiration : Int
  strike : ℚ
  callMidIv : ℚ
  putMidIv : ℚ
  delta : ℚ
  gamma : ℚ
  theta : ℚ
  vega : ℚ
deriving DecidableEq, Repr

/-- `|strike - current_price|`, the distance used by `closest_atm`
(app.py line 76) and the 5% band (line 70). -/
def strikeDist (p : ℚ) (r : StrikeRecord) : ℚ := |r.strike - p|

/-- app.py lines 60-64: keep rows with `today <= expiration <= today + 60`
(`two_months = today + timedelta(days=60)`), a pandas boolean-mask filter,
which keeps matching rows in their original order. -/
def df_two_months (today : Int) (l : List StrikeRecord) : List StrikeRecord :=
  l.filter (fun r => decide (today ≤ r.expiration ∧ r.expiration ≤ today + 60))

/-- Accumulator form of pandas `Series.idxmin` over the distances: keep the
current best `b` unless a later row is strictly closer, so the first
occurrence of the minimum wins. -/
def pickMin (p : ℚ) : StrikeRecord → List StrikeRecord → StrikeRecord
  | b, [] => b
  | b, r :: rs => pickMin p (if strikeDist p r < strikeDist p b then r else b) rs

/-- app.py lines 75-77: `closest_atm(group)` returns
`group.loc[(group["strike"] - current_price).abs().idxmin()]`, i.e. the
first row of the group attaining the minimum absolute distance to the
current price; `none` on an empty group. -/
def closest_atm (p : ℚ) : List StrikeRecord → Option StrikeRecord
  | [] => none
  | r :: rs => some (pickMin p r rs)

/-- The distinct expiration dates of a candidate list, sorted ascending:
pandas `groupby("expiration")` with its default `sort=True` iterates the
groups in sorted key order. -/
def groupKeys (l : List StrikeRecord) : List Int :=
  List.insertionSort (· ≤ ·) ((l.map (fun r => r.expiration)).dedup)

/-- The rows of `l` belonging to the expiration-date group `k`, in their
original order (pandas groupby preserves within-group row order). -/
def groupFor (k : Int) (l : List StrikeRecord) : List StrikeRecord :=
  l.filter (fun r => decide (r.expiration = k))

/-- app.py lines 79-83: `df_atm.groupby("expiration").apply(closest_atm)` —
one nearest-to-the-money row per expiration date present in the
candidate set. -/
def df_atm_grouped (p : ℚ) (cand : List StrikeRecord) : List StrikeRecord :=
  (groupKeys cand).filterMap (fun k => closest_atm p (groupFor k cand))

/-- app.py lines 68-71: strikes whose distance to the current price is at
most `atm_threshold = 0.05 * current_price`. -/
def tight_candidates (p : ℚ) (w : List StrikeRecord) : List StrikeRecord :=
  w.filter (fun r => decide (|r.strike - p| ≤ (0.05 : ℚ) * p))

/-- app.py lines 69-73: the candidate set is the 5% band, widened to the
whole window when the band is empty (`if df_atm.empty: df_atm =
df_two_months.copy()`). -/
def df_atm (p : ℚ) (w : List StrikeRecord) : List StrikeRecord :=
  if tight_candidates p w = [] then w else tight_candidates p w

/-- The two-stage Nearest-ATM Selector applied to a windowed strikes set
with a present, nonzero current price (app.py lines 68-83). -/
def nearest_atm_selector (p : ℚ) (w : List StrikeRecord) : List StrikeRecord :=
  df_atm_grouped p (df_atm p w)

/-- app.py lines 66-67: `df_atm_grouped = pd.DataFrame()` then selection
only `if not df_two_months.empty and current_price:` — Python truthiness,
so both `None` and `0.0` skip the selection and leave the result empty. -/
def atm_selection : Option ℚ → List StrikeRecord → List StrikeRecord
  | none, _ => []
  | some p, dtm => if dtm.isEmpty || p == 0 then [] else nearest_atm_selector p dtm

/-- The candidate set of the worked example in spec.md section 8 (price
245): a tie at expiration 1 between strikes 240 and 250, and strike 246
at expiration 2. -/
def exampleCandidates : List StrikeRecord :=
  [⟨1, 240, 0, 0, 0, 0, 0, 0⟩, ⟨1, 250, 0, 0, 0, 0, 0, 0⟩, ⟨2, 246, 0, 0, 0, 0, 0, 0⟩]

/-! ### The pipeline control flow (app.py lines 24-159)

Fetch results are modelled as `Except` values: `.error e` stands for the
corresponding `requests.get(...).json()` call (or the chat-completion
call) raising an exception `e`, `.ok` for a parsed response.  An uncaught
Python exception inside the run is recorded in the `crashed` field of the
output; `st.error` messages are collected in `errors`. -/

/-- The quote-summary dataframe: the rendered rows and the value of
`loc[0, "stockPrice"]` when that column is present (app.py lines 30-40). -/
structure SummariesTable where
  rowsText : List String
  stockPrice : Option ℚ
deriving DecidableEq, Repr

/-- The strikes dataframe: whether the `expiration` / `expirDate` columns
are present, and the records after date normalization (app.py lines
50-58). -/
structure StrikesTable where
  hasExpiration : Bool
  hasExpirDate : Bool
  rows : List StrikeRecord
deriving DecidableEq, Repr

/-- One run of the app for a ticker: the current date and the outcomes of
the four outbound calls (three ORATS fetches and the chat completion). -/
structure PipelineInput where
  today : Int
  ticker : String
  summaries : Except String SummariesTable
  strikes : Except String StrikesTable
  cores : Except String (List String)
  completion : Except String String
deriving Repr

/-- What a run displays: `st.error` messages, the tables shown, which
fetches were attempted, how many completion calls were made, the AI text,
and an uncaught exception if one escaped. -/
structure RunOutput where
  errors : List String
  summariesShown : Bool
  atmTable : List StrikeRecord
  coresTable : List String
  strikesAttempted : Bool
  coresAttempted : Bool
  completionAttempts : Nat
  aiText : Option String
  crashed : Option String
deriving DecidableEq, Repr

/-- `df_summaries.to_string(index=False)` (app.py line 112), abstracted as
joining the rendered rows. -/
def summaries_text (t : SummariesTable) : String :=
  String.intercalate "\n" t.rowsText

/-- A deterministic whitespace-delimited rendering of one strike row, the
shape `DataFrame.to_string` gives a row. -/
def renderStrikeRow (r : StrikeRecord) : String :=
  toString r.expiration ++ " " ++ toString r.strike ++ " " ++ toString r.callMidIv ++ " " ++
    toString r.putMidIv ++ " " ++ toString r.delta ++ " " ++ toString r.gamma ++ " " ++
    toString r.theta ++ " " ++ toString r.vega

/-- app.py line 113: the rendered ATM table, or the literal placeholder
when the selection result is empty. -/
def atm_text (atm : List StrikeRecord) : String :=
  if atm.isEmpty then "No ATM data" else String.intercalate "\n" (atm.map renderStrikeRow)

/-- app.py line 114: the rendered core table, or the literal placeholder
when the core analytics set is empty. -/
def cores_text (cores : List String) : String :=
  if cores.isEmpty then "No Core Data" else String.intercalate "\n" cores

/-- Models the interpolation of `current_price` with a two-decimal float
format inside the prompt f-string (app.py line 129): formatting `None`
raises a TypeError; a number renders as decimal text (the exact digit
rendering is abstracted to `toString`). -/
def formatPrice : Option ℚ → Except String String
  | none => Except.error "TypeError: unsupported format string passed to NoneType"
  | some p => Except.ok (toString p)

/-- app.py lines 116-135: the fixed-structure user prompt embedding the
three rendered tables and the formatted current price. -/
def prompt_user (ticker sText aText cText : String) (price : Option ℚ) :
    Except String String :=
  (formatPrice price).map (fun priceText =>
    "You are an expert options trader. Below is specific ORATS data for " ++ ticker ++
    ":\n1) Summaries Data:\n" ++ sText ++
    "\n2) ATM Options for the Next Two Months:\n" ++ aText ++
    "\n3) Core Data:\n" ++ cText ++
    "\nBased on these specific numbers, please provide a detailed interpretation." ++
    " What does the current price of " ++ priceText ++
    " and the fact that ATM options are at a strike of 245 imply?" ++
    " How do the implied volatility numbers and the Greeks influence the strategy?" ++
    " Provide actionable insights based on these exact output values.")

/-- The Narrative Prompt Builder (app.py lines 112-135): three record sets,
a ticker and an optional current price, producing the prompt text or the
TypeError raised while formatting an absent price. -/
def build_prompt (ticker : String) (ds : SummariesTable) (atm : List StrikeRecord)
    (cores : List String) (price : Option ℚ) : Except String String :=
  prompt_user ticker (summaries_text ds) (atm_text atm) (cores_text cores) price

/-- The straight-line control flow of app.py lines 24-159 for one ticker
run. -/
def runPipeline (inp : PipelineInput) : RunOutput :=
  match inp.summaries with
  | .error e =>
      { errors := [], summariesShown := false, atmTable := [], coresTable := [],
        strikesAttempted := false, coresAttempted := false, completionAttempts := 0,
        aiText := none, crashed := some e }
  | .ok ds =>
    if ds.rowsText.isEmpty then
      { errors := ["No summary data returned from ORATS. Check your ticker or API token."],
        summariesShown := false, atmTable := [], coresTable := [],
        strikesAttempted := false, coresAttempted := false, completionAttempts := 0,
        aiText := none, crashed := none }
    else
      match inp.strikes with
      | .error e =>
          { errors := [], summariesShown := true, atmTable := [], coresTable := [],
            strikesAttempted := true, coresAttempted := false, completionAttempts := 0,
            aiText := none, crashed := some e }
      | .ok stk =>
        if stk.hasExpiration || stk.hasExpirDate then
          let atm := atm_selection ds.stockPrice (df_two_months inp.today stk.rows)
          match inp.cores with
          | .error e =>
              { errors := [], summariesShown := true, atmTable := atm, coresTable := [],
                strikesAttempted := true, coresAttempted := true, completionAttempts := 0,
                aiText := none, crashed := some e }
          | .ok cores =>
            match build_prompt inp.ticker ds atm cores ds.stockPrice with
            | .error e =>
                { errors := [], summariesShown := true, atmTable := atm,
                  coresTable := cores, strikesAttempted := true, coresAttempted := true,
                  completionAttempts := 0, aiText := none, crashed := some e }
            | .ok _prompt =>
              match inp.completion with
              | .ok text =>
                  { errors := [], summariesShown := true, atmTable := atm,
                    coresTable := cores, strikesAttempted := true, coresAttempted := true,
                    completionAttempts := 1, aiText := some text, crashed := none }
              | .error e =>
                  { errors := ["Error with OpenAI API: " ++ e], summariesShown := true,
                    atmTable := atm, coresTable := cores, strikesAttempted := true,
                    coresAttempted := true, completionAttempts := 1, aiText := none,
                    crashed := none }
        else
          -- st.error on line 58, then `df_strikes["expiration"]` on line 63
          -- raises an uncaught KeyError: the window filter is never produced.
          { errors := ["Strikes data missing expiration or expirDate."],
            summariesShown := true, atmTable := [], coresTable := [],
            strikesAttempted := true, coresAttempted := false, completionAttempts := 0,
            aiText := none, crashed := some "KeyError: expiration" }

/-- A run whose strikes fetch succeeds but whose result has neither an
`expiration` nor an `expirDate` column. -/
def missingColumnsInput : PipelineInput :=
  { today := 0, ticker := "AAPL",
    summaries := Except.ok ⟨["row1"], some 100⟩,
    strikes := Except.ok ⟨false, false, []⟩,
    cores := Except.ok [], completion := Except.ok "ok" }

/-- A run whose quote-summary fetch raises a transport error. -/
def fetchErrorInput : PipelineInput :=
  { today := 0, ticker := "AAPL", summaries := Except.error "ConnectionError",
    strikes := Except.ok ⟨true, false, []⟩, cores := Except.ok [],
    completion := Except.ok "ok" }

-- The worked example of spec.md section 8: price 245, strikes (E1,240),
-- (E1,250), (E2,246); the tie at E1 goes to 240 (first occurrence).
example :
    nearest_atm_selector 245
      [⟨1, 240, 0, 0, 0, 0, 0, 0⟩, ⟨1, 250, 0, 0, 0, 0, 0, 0⟩, ⟨2, 246, 0, 0, 0, 0, 0, 0⟩]
    = [⟨1, 240, 0, 0, 0, 0, 0, 0⟩, ⟨2, 246, 0, 0, 0, 0, 0, 0⟩] := by
  norm_num [nearest_atm_selector, df_atm, tight_candidates, df_atm_grouped, groupKeys,
    groupFor, closest_atm, pickMin, strikeDist, List.insertionSort, List.orderedInsert,
    List.dedup, List.filter, List.filterMap, List.pwFilter, abs]

/-! ### C3: the near-term window filter -/

/-- C3: the Near-Term Window Filter output contains exactly those input
records whose expiration satisfies `today ≤ expiration ≤ today + 60`
(inclusive on both ends), every input record satisfying that predicate
appears in the output, and the relative order of records is preserved
(the output is a sublist of the input). -/
theorem df_two_months_correct (today : Int) (l : List StrikeRecord) :
    (∀ r ∈ df_two_months today l, r ∈ l ∧ today ≤ r.expiration ∧ r.expiration ≤ today + 60) ∧
    (∀ r ∈ l, today ≤ r.expiration → r.expiration ≤ today + 60 →
      r ∈ df_two_months today l) ∧
    (df_two_months today l).Sublist l := by
  refine ⟨?_, ?_, List.filter_sublist l⟩
  · intro r hr
    simp only [df_two_months, List.mem_filter, decide_eq_true_eq] at hr
    exact ⟨hr.1, hr.2⟩
  · intro r hr h1 h2
    simp only [df_two_months, List.mem_filter, decide_eq_true_eq]
    exact ⟨hr, h1, h2⟩

/-- Witness for C3 at a concrete input: the record with expiration 5 is
kept by the window filter for `today = 0`. -/
theorem df_two_months_correct_witness :
    (⟨5, 1, 0, 0, 0, 0, 0, 0⟩ : StrikeRecord) ∈ df_two_months 0 [⟨5, 1, 0, 0, 0, 0, 0, 0⟩] :=
  (df_two_months_correct 0 [⟨5, 1, 0, 0, 0, 0, 0, 0⟩]).2.1
    ⟨5, 1, 0, 0, 0, 0, 0, 0⟩ (by simp) (by decide) (by decide)

/-! ### C9 and C10: the guard on the ATM selection -/

/-- C9: when the current price is absent the ATM selection result is empty
regardless of the windowed strikes set, and when the windowed strikes set
is empty the result is empty regardless of the price. -/
theorem atm_selection_empty_cases (price : Option ℚ) (dtm : List StrikeRecord) :
    atm_selection none dtm = [] ∧ atm_selection price [] = [] := by
  refine ⟨rfl, ?_⟩
  cases price with
  | none => rfl
  | some p => simp [atm_selection]

/-- C10: a present price equal to 0 is falsy in the guard
`if not df_two_months.empty and current_price:`, so for every non-empty
windowed strikes set the ATM selection is empty, exactly as when the
price is absent. -/
theorem atm_selection_zero_price (dtm : List StrikeRecord) (_h : dtm ≠ []) :
    atm_selection (some 0) dtm = [] ∧
      atm_selection (some 0) dtm = atm_selection none dtm := by
  simp [atm_selection]

/-- Witness for C10 at a concrete non-empty windowed set. -/
theorem atm_selection_zero_price_witness :
    atm_selection (some 0) [⟨1, 240, 0, 0, 0, 0, 0, 0⟩] = [] ∧
      atm_selection (some 0) [⟨1, 240, 0, 0, 0, 0, 0, 0⟩]
        = atm_selection none [⟨1, 240, 0, 0, 0, 0, 0, 0⟩] :=
  atm_selection_zero_price [⟨1, 240, 0, 0, 0, 0, 0, 0⟩] (by simp)

/-! ### C2: the fallback law -/

/-- C2: if the tight candidate set (strikes within 5% of the current
price) is empty, the selector output equals running the per-date
minimum-distance selection directly on the entire windowed set. -/
theorem selector_fallback_law (p : ℚ) (w : List StrikeRecord)
    (h : tight_candidates p w = []) :
    nearest_atm_selector p w = df_atm_grouped p w := by
  unfold nearest_atm_selector df_atm
  rw [if_pos h]

/-- Witness for C2: at price 100 the single strike 200 is outside the 5%
band, so the fallback applies. -/
theorem selector_fallback_law_witness :
    nearest_atm_selector 100 [⟨1, 200, 0, 0, 0, 0, 0, 0⟩]
      = df_atm_grouped 100 [⟨1, 200, 0, 0, 0, 0, 0, 0⟩] :=
  selector_fallback_law 100 [⟨1, 200, 0, 0, 0, 0, 0, 0⟩]
    (by norm_num [tight_candidates, List.filter, abs])

/-! ### C1: per-group nearest-ATM selection -/

/-- `pickMin` returns the first row attaining the minimum distance: the
group splits as `pre ++ result :: post` with every row of `pre` strictly
farther from the price, and the result is a global minimum. -/
theorem pickMin_spec (p : ℚ) (rs : List StrikeRecord) : ∀ b : StrikeRecord,
    ∃ pre post, b :: rs = pre ++ pickMin p b rs :: post ∧
      (∀ x ∈ pre, strikeDist p (pickMin p b rs) < strikeDist p x) ∧
      (∀ x ∈ b :: rs, strikeDist p (pickMin p b rs) ≤ strikeDist p x) := by
  induction rs with
  | nil =>
    intro b
    exact ⟨[], [], rfl, by simp, by simp [pickMin]⟩
  | cons r rs ih =>
    intro b
    by_cases h : strikeDist p r < strikeDist p b
    · have hpick : pickMin p b (r :: rs) = pickMin p r rs := by
        simp [pickMin, if_pos h]
      obtain ⟨pre, post, hsplit, hpre, hmin⟩ := ih r
      have hltb : strikeDist p (pickMin p r rs) < strikeDist p b :=
        lt_of_le_of_lt (hmin r (List.mem_cons_self r rs)) h
      refine ⟨b :: pre, post, ?_, ?_, ?_⟩
      · rw [hpick, List.cons_append, ← hsplit]
      · intro x hx
        rw [hpick]
        rcases List.mem_cons.mp hx with hxb | hxp
        · rw [hxb]; exact hltb
        · exact hpre x hxp
      · intro x hx
        rw [hpick]
        rcases List.mem_cons.mp hx with hxb | hxt
        · rw [hxb]; exact le_of_lt hltb
        · exact hmin x hxt
    · have hpick : pickMin p b (r :: rs) = pickMin p b rs := by
        simp [pickMin, if_neg h]
      have hble : strikeDist p b ≤ strikeDist p r := le_of_not_lt h
      obtain ⟨pre, post, hsplit, hpre, hmin⟩ := ih b
      cases pre with
      | nil =>
        simp only [List.nil_append] at hsplit
        injection hsplit with hmb hpost
        refine ⟨[], r :: rs, ?_, by simp, ?_⟩
        · rw [hpick, List.nil_append, ← hmb]
        · intro x hx
          rw [hpick, ← hmb]
          rcases List.mem_cons.mp hx with h1 | h2
          · rw [h1]
          rcases List.mem_cons.mp h2 with h3 | h4
          · rw [h3]; exact hble
          · have := hmin x (List.mem_cons_of_mem b h4)
            rwa [← hmb] at this
      | cons b0 pre' =>
        simp only [List.cons_append] at hsplit
        injection hsplit with hb0 htail
        have hmb : strikeDist p (pickMin p b rs) < strikeDist p b := by
          have := hpre b0 (List.mem_cons_self b0 pre')
          rwa [← hb0] at this
        refine ⟨b :: r :: pre', post, ?_, ?_, ?_⟩
        · rw [hpick]
          simp only [List.cons_append]
          rw [← htail]
        · intro x hx
          rw [hpick]
          rcases List.mem_cons.mp hx with h1 | h2
          · rw [h1]; exact hmb
          rcases List.mem_cons.mp h2 with h3 | h4
          · rw [h3]; exact lt_of_lt_of_le hmb hble
          · exact hpre x (List.mem_cons_of_mem b0 h4)
        · intro x hx
          rw [hpick]
          rcases List.mem_cons.mp hx with h1 | h2
          · rw [h1]; exact hmin b (List.mem_cons_self b rs)
          rcases List.mem_cons.mp h2 with h3 | h4
          · rw [h3]; exact le_of_lt (lt_of_lt_of_le hmb hble)
          · exact hmin x (List.mem_cons_of_mem b h4)

/-- `closest_atm` on a non-empty group: a first-occurrence stable minimum. -/
theorem closest_atm_spec (p : ℚ) (g : List StrikeRecord) (h : g ≠ []) :
    ∃ r pre post, closest_atm p g = some r ∧ g = pre ++ r :: post ∧
      (∀ x ∈ pre, strikeDist p r < strikeDist p x) ∧
      (∀ x ∈ g, strikeDist p r ≤ strikeDist p x) := by
  cases g with
  | nil => exact absurd rfl h
  | cons b rs =>
    obtain ⟨pre, post, hsplit, hpre, hmin⟩ := pickMin_spec p rs b
    exact ⟨pickMin p b rs, pre, post, rfl, hsplit, hpre, hmin⟩

/-- A selected row belongs to its group. -/
theorem closest_atm_mem {p : ℚ} {g : List StrikeRecord} {r : StrikeRecord}
    (h : closest_atm p g = some r) : r ∈ g := by
  cases g with
  | nil => simp [closest_atm] at h
  | cons b rs =>
    obtain ⟨pre, post, hsplit, _, _⟩ := pickMin_spec p rs b
    simp only [closest_atm, Option.some.injEq] at h
    rw [← h, hsplit]
    exact List.mem_append_right _ (List.mem_cons_self _ _)

/-- The group keys are exactly the expirations occurring in the list. -/
theorem mem_groupKeys {l : List StrikeRecord} {k : Int} :
    k ∈ groupKeys l ↔ ∃ r ∈ l, r.expiration = k := by
  unfold groupKeys
  rw [(List.perm_insertionSort _ _).mem_iff]
  simp [List.mem_dedup, List.mem_map]

/-- The group keys are pairwise distinct. -/
theorem nodup_groupKeys (l : List StrikeRecord) : (groupKeys l).Nodup := by
  unfold groupKeys
  rw [(List.perm_insertionSort _ _).nodup_iff]
  exact List.nodup_dedup _

/-- Rows of a group carry the group key as expiration. -/
theorem groupFor_expiration {k : Int} {l : List StrikeRecord} {x : StrikeRecord}
    (h : x ∈ groupFor k l) : x.expiration = k := by
  simp only [groupFor, List.mem_filter, decide_eq_true_eq] at h
  exact h.2

/-- A non-empty group means its key occurs among the group keys. -/
theorem groupKeys_of_groupFor_ne_nil {k : Int} {l : List StrikeRecord}
    (h : groupFor k l ≠ []) : k ∈ groupKeys l := by
  obtain ⟨x, hx⟩ := List.exists_mem_of_ne_nil _ h
  have hxl : x ∈ l := (List.mem_filter.mp hx).1
  exact mem_groupKeys.mpr ⟨x, hxl, groupFor_expiration hx⟩

/-- Groups for keys outside `ks` contribute nothing with expiration `k`. -/
theorem filter_filterMap_not_mem (p : ℚ) (cand : List StrikeRecord) {k : Int}
    {ks : List Int} (hk : k ∉ ks) :
    (ks.filterMap (fun j => closest_atm p (groupFor j cand))).filter
      (fun x => decide (x.expiration = k)) = [] := by
  rw [List.filter_eq_nil_iff]
  intro x hx
  obtain ⟨j, hj, hcx⟩ := List.mem_filterMap.mp hx
  have hxj : x.expiration = j := groupFor_expiration (closest_atm_mem hcx)
  simp only [hxj, decide_eq_true_eq]
  intro hjk
  exact hk (hjk ▸ hj)

/-- Over distinct keys, the grouped selection has exactly one row with
expiration `k`, namely the row `closest_atm` picks for that group. -/
theorem filter_filterMap_groups (p : ℚ) (cand : List StrikeRecord) :
    ∀ (ks : List Int) (k : Int) (r : StrikeRecord), ks.Nodup → k ∈ ks →
      closest_atm p (groupFor k cand) = some r →
      (ks.filterMap (fun j => closest_atm p (groupFor j cand))).filter
        (fun x => decide (x.expiration = k)) = [r] := by
  intro ks
  induction ks with
  | nil =>
    intro k r _ hk
    exact absurd hk (List.not_mem_nil k)
  | cons j ks ih =>
    intro k r hnd hk hr
    rcases List.mem_cons.mp hk with hkj | hkmem
    · subst hkj
      simp only [List.filterMap_cons, hr]
      have hrk : r.expiration = k := groupFor_expiration (closest_atm_mem hr)
      rw [List.filter_cons]
      simp only [hrk, decide_true_eq_true, decide_eq_true_eq, if_pos rfl]
      have hknotin : k ∉ ks := (List.nodup_cons.mp hnd).1
      rw [filter_filterMap_not_mem p cand hknotin]
      simp
    · have hjk : j ≠ k := fun he => (List.nodup_cons.mp hnd).1 (he ▸ hkmem)
      cases hcj : closest_atm p (groupFor j cand) with
      | none =>
        simp only [List.filterMap_cons, hcj]
        exact ih k r (List.nodup_cons.mp hnd).2 hkmem hr
      | some y =>
        simp only [List.filterMap_cons, hcj]
        rw [List.filter_cons]
        have hyj : y.expiration = j := groupFor_expiration (closest_atm_mem hcj)
        simp only [hyj, decide_eq_true_eq, if_neg hjk]
        exact ih k r (List.nodup_cons.mp hnd).2 hkmem hr

/-- C1: for every non-empty per-expiration-date candidate group the
selector keeps exactly one row for that group (the grouped output has
exactly one row with that expiration), no other row of the group is
strictly closer to the current price, and on ties the first row in input
order is selected (every row before the selected one is strictly
farther). -/
theorem nearest_atm_per_group_correct (p : ℚ) (cand : List StrikeRecord) (k : Int)
    (hne : groupFor k cand ≠ []) :
    ∃ r pre post,
      closest_atm p (groupFor k cand) = some r ∧
      groupFor k cand = pre ++ r :: post ∧
      (∀ x ∈ pre, strikeDist p r < strikeDist p x) ∧
      (∀ x ∈ groupFor k cand, strikeDist p r ≤ strikeDist p x) ∧
      (df_atm_grouped p cand).filter (fun x => decide (x.expiration = k)) = [r] := by
  obtain ⟨r, pre, post, hsome, hsplit, hpre, hmin⟩ := closest_atm_spec p _ hne
  refine ⟨r, pre, post, hsome, hsplit, hpre, hmin, ?_⟩
  unfold df_atm_grouped
  exact filter_filterMap_groups p cand (groupKeys cand) k r (nodup_groupKeys cand)
    (groupKeys_of_groupFor_ne_nil hne) hsome

/-- Witness for C1 at the concrete tie-breaking group of expiration 1. -/
theorem nearest_atm_per_group_correct_witness :
    ∃ r pre post,
      closest_atm 245 (groupFor 1 exampleCandidates) = some r ∧
      groupFor 1 exampleCandidates = pre ++ r :: post ∧
      (∀ x ∈ pre, strikeDist 245 r < strikeDist 245 x) ∧
      (∀ x ∈ groupFor 1 exampleCandidates, strikeDist 245 r ≤ strikeDist 245 x) ∧
      (df_atm_grouped 245 exampleCandidates).filter
        (fun x => decide (x.expiration = 1)) = [r] :=
  nearest_atm_per_group_correct 245 exampleCandidates 1
    (by simp [groupFor, exampleCandidates])

/-- A non-empty list has `isEmpty = false`. -/
theorem isEmpty_false_of_ne_nil {α : Type} {l : List α} (h : l ≠ []) :
    l.isEmpty = false := by
  cases l with
  | nil => exact absurd rfl h
  | cons a t => rfl

/-! ### C4: empty quote summary aborts the run -/

/-- C4: when the quote-summary query returns zero records the run shows a
single error message and stops there: no strikes, cores or completion
call is attempted, no table is shown and no exception escapes. -/
theorem summaries_empty_aborts (inp : PipelineInput) (ds : SummariesTable)
    (hs : inp.summaries = Except.ok ds) (hempty : ds.rowsText = []) :
    runPipeline inp =
      { errors := ["No summary data returned from ORATS. Check your ticker or API token."],
        summariesShown := false, atmTable := [], coresTable := [],
        strikesAttempted := false, coresAttempted := false, completionAttempts := 0,
        aiText := none, crashed := none } := by
  unfold runPipeline
  rw [hs]
  simp [hempty]

/-- Witness for C4 at a concrete run with an empty quote summary. -/
theorem summaries_empty_aborts_witness :
    runPipeline
      { today := 0, ticker := "AAPL", summaries := Except.ok ⟨[], none⟩,
        strikes := Except.ok ⟨true, false, []⟩, cores := Except.ok [],
        completion := Except.ok "ok" } =
      { errors := ["No summary data returned from ORATS. Check your ticker or API token."],
        summariesShown := false, atmTable := [], coresTable := [],
        strikesAttempted := false, coresAttempted := false, completionAttempts := 0,
        aiText := none, crashed := none } :=
  summaries_empty_aborts _ ⟨[], none⟩ rfl rfl

/-! ### C5: strikes with neither expiration column -/

/-- C5, evaluated at the failing input: the error is surfaced as claimed,
but the run then crashes with an uncaught KeyError on
`df_strikes["expiration"]` (app.py line 63) instead of handing an empty
set to the window filter and selector — the cores fetch is never
reached. -/
theorem strikes_missing_columns_crashes :
    (runPipeline missingColumnsInput).errors
        = ["Strikes data missing expiration or expirDate."] ∧
      (runPipeline missingColumnsInput).crashed = some "KeyError: expiration" ∧
      (runPipeline missingColumnsInput).coresAttempted = false :=
  ⟨rfl, rfl, rfl⟩

/-! ### C6: which call sites are guarded -/

/-- C6 counterexample: the market-data fetches are bare
`requests.get(url).json()` calls with no try/except, so a transport error
in the quote-summary fetch escapes uncaught — refuting the claim that no
exception escapes on any run. -/
theorem run_fetch_error_escapes : (runPipeline fetchErrorInput).crashed ≠ none := by
  simp [runPipeline, fetchErrorInput]

/-- C6 amended: only the completion call is individually guarded.  When
the three market-data fetches succeed, the summaries are non-empty with a
present stock price and the strikes table has an expiration column, no
exception escapes whatever the completion call does; a transport error in
a market-data fetch, by contrast, escapes uncaught (see the
counterexample). -/
theorem completion_call_guarded (inp : PipelineInput) (ds : SummariesTable)
    (stk : StrikesTable) (cores : List String) (p : ℚ)
    (hs : inp.summaries = Except.ok ds) (hne : ds.rowsText ≠ [])
    (hstk : inp.strikes = Except.ok stk)
    (hcol : (stk.hasExpiration || stk.hasExpirDate) = true)
    (hcores : inp.cores = Except.ok cores)
    (hp : ds.stockPrice = some p) :
    (runPipeline inp).crashed = none := by
  have h1 : ds.rowsText.isEmpty = false := isEmpty_false_of_ne_nil hne
  cases hcomp : inp.completion with
  | ok t =>
    simp [runPipeline, hs, hstk, hcores, hcomp, h1, hcol, build_prompt, prompt_user,
      formatPrice, Except.map, hp]
  | error e =>
    simp [runPipeline, hs, hstk, hcores, hcomp, h1, hcol, build_prompt, prompt_user,
      formatPrice, Except.map, hp]

/-- Witness for the amended C6 at a concrete run whose completion call
fails. -/
theorem completion_call_guarded_witness :
    (runPipeline
      { today := 0, ticker := "AAPL",
        summaries := Except.ok ⟨["row1"], some 100⟩,
        strikes := Except.ok ⟨true, false, []⟩,
        cores := Except.ok [],
        completion := Except.error "ServiceUnavailable" }).crashed = none :=
  completion_call_guarded _ ⟨["row1"], some 100⟩ ⟨true, false, []⟩ [] 100
    rfl (by simp) rfl rfl rfl rfl

/-! ### C7: completion failure handling -/

/-- C7: when the chat-completion call raises, the error is caught locally
and shown as a user-visible message, no exception escapes, exactly one
completion attempt is made (no retry), no AI text is shown, and the
tables already displayed (summaries, ATM, cores) are exactly those of the
same run with a successful completion. -/
theorem completion_error_handled (inp : PipelineInput) (ds : SummariesTable)
    (stk : StrikesTable) (cores : List String) (p : ℚ) (e : String)
    (hs : inp.summaries = Except.ok ds) (hne : ds.rowsText ≠ [])
    (hstk : inp.strikes = Except.ok stk)
    (hcol : (stk.hasExpiration || stk.hasExpirDate) = true)
    (hcores : inp.cores = Except.ok cores)
    (hp : ds.stockPrice = some p)
    (hcomp : inp.completion = Except.error e) :
    (runPipeline inp).crashed = none ∧
    (runPipeline inp).errors = ["Error with OpenAI API: " ++ e] ∧
    (runPipeline inp).aiText = none ∧
    (runPipeline inp).completionAttempts = 1 ∧
    (∀ t : String,
      (runPipeline { inp with completion := Except.ok t }).summariesShown
          = (runPipeline inp).summariesShown ∧
      (runPipeline { inp with completion := Except.ok t }).atmTable
          = (runPipeline inp).atmTable ∧
      (runPipeline { inp with completion := Except.ok t }).coresTable
          = (runPipeline inp).coresTable) := by
  have h1 : ds.rowsText.isEmpty = false := isEmpty_false_of_ne_nil hne
  refine ⟨?_, ?_, ?_, ?_, ?_⟩ <;>
    simp [runPipeline, hs, hstk, hcores, hcomp, h1, hcol, build_prompt, prompt_user,
      formatPrice, Except.map, hp]

/-- Witness for C7 at a concrete run whose completion call fails. -/
theorem completion_error_handled_witness :
    (runPipeline
      { today := 0, ticker := "AAPL",
        summaries := Except.ok ⟨["row1"], some 100⟩,
        strikes := Except.ok ⟨true, false, []⟩,
        cores := Except.ok ["core1"],
        completion := Except.error "RateLimit" }).crashed = none ∧
    (runPipeline
      { today := 0, ticker := "AAPL",
        summaries := Except.ok ⟨["row1"], some 100⟩,
        strikes := Except.ok ⟨true, false, []⟩,
        cores := Except.ok ["core1"],
        completion := Except.error "RateLimit" }).errors
        = ["Error with OpenAI API: " ++ "RateLimit"] ∧
    (runPipeline
      { today := 0, ticker := "AAPL",
        summaries := Except.ok ⟨["row1"], some 100⟩,
        strikes := Except.ok ⟨true, false, []⟩,
        cores := Except.ok ["core1"],
        completion := Except.error "RateLimit" }).aiText = none ∧
    (runPipeline
      { today := 0, ticker := "AAPL",
        summaries := Except.ok ⟨["row1"], some 100⟩,
        strikes := Except.ok ⟨true, false, []⟩,
        cores := Except.ok ["core1"],
        completion := Except.error "RateLimit" }).completionAttempts = 1 ∧
    (∀ t : String,
      (runPipeline { (⟨0, "AAPL", Except.ok ⟨["row1"], some 100⟩,
          Except.ok ⟨true, false, []⟩, Except.ok ["core1"],
          Except.error "RateLimit"⟩ : PipelineInput) with
            completion := Except.ok t }).summariesShown
          = (runPipeline
      { today := 0, ticker := "AAPL",
        summaries := Except.ok ⟨["row1"], some 100⟩,
        strikes := Except.ok ⟨true, false, []⟩,
        cores := Except.ok ["core1"],
        completion := Except.error "RateLimit" }).summariesShown ∧
      (runPipeline { (⟨0, "AAPL", Except.ok ⟨["row1"], some 100⟩,
          Except.ok ⟨true, false, []⟩, Except.ok ["core1"],
          Except.error "RateLimit"⟩ : PipelineInput) with
            completion := Except.ok t }).atmTable
          = (runPipeline
      { today := 0, ticker := "AAPL",
        summaries := Except.ok ⟨["row1"], some 100⟩,
        strikes := Except.ok ⟨true, false, []⟩,
        cores := Except.ok ["core1"],
        completion := Except.error "RateLimit" }).atmTable ∧
      (runPipeline { (⟨0, "AAPL", Except.ok ⟨["row1"], some 100⟩,
          Except.ok ⟨true, false, []⟩, Except.ok ["core1"],
          Except.error "RateLimit"⟩ : PipelineInput) with
            completion := Except.ok t }).coresTable
          = (runPipeline
      { today := 0, ticker := "AAPL",
        summaries := Except.ok ⟨["row1"], some 100⟩,
        strikes := Except.ok ⟨true, false, []⟩,
        cores := Except.ok ["core1"],
        completion := Except.error "RateLimit" }).coresTable) :=
  completion_error_handled _ ⟨["row1"], some 100⟩ ⟨true, false, []⟩ ["core1"] 100
    "RateLimit" rfl (by simp) rfl rfl rfl rfl rfl

/-! ### C8: the prompt builder on an absent price -/

/-- C8, evaluated at the failing input: the empty-table placeholders do
substitute as specified, but when the current price is absent the prompt
f-string formats `None` with a float format (app.py line 129) and raises
a TypeError instead of producing a text blob. -/
theorem prompt_builder_typeerror_on_absent_price :
    atm_text [] = "No ATM data" ∧ cores_text [] = "No Core Data" ∧
      build_prompt "AAPL" ⟨["row1"], none⟩ [] [] none
        = Except.error "TypeError: unsupported format string passed to NoneType" :=
  ⟨rfl, rfl, rfl⟩
